import Mathlib

/-!
Verification of the hearth-display server core: the shared-state document,
its defaults reconciler and merge, the popup store, the pairing/auth gate,
and the SSE subscribe path.

The embedding follows the JavaScript runtime semantics of the source.  A
JSON document field that may be absent is an `Option`; JS object spread
`{...a, ...b}` on such fields becomes `jsOr` (the value from `b` when the
key is present there, else the value from `a`), and `x ?? y` likewise.
Timestamps are ISO-8601 strings compared byte-wise (`strLt`), which is both
SQLite's BINARY collation used by the popup queries and the wall-clock
ordering of equal-format ISO strings.
-/

namespace Hearth

/-- JS key-presence fallback: models both `b.f ?? a.f` and the effect of
`{...a, ...b}` on field `f` (present keys of `b` win). -/
def jsOr {α : Type} (a b : Option α) : Option α :=
  match a with
  | some v => some v
  | none => b

@[simp] theorem jsOr_some {α : Type} (v : α) (b : Option α) : jsOr (some v) b = some v := rfl

@[simp] theorem jsOr_none {α : Type} (b : Option α) : jsOr none b = b := rfl

theorem jsOr_self_right {α : Type} (a b : Option α) : jsOr (jsOr a b) b = jsOr a b := by
  cases a <;> cases b <;> rfl

theorem jsOr_some_right {α : Type} (a : Option α) (v : α) :
    ∃ w, jsOr a (some v) = some w := by
  cases a <;> exact ⟨_, rfl⟩

/-! ## Data model

Runtime shape of the shared state document (`HearthState` in
`packages/shared/src/types.ts`, with the extra fields present in
`createDefaultState`).  Every field is optional because stored documents can
predate schema evolution, and partial updates carry only some keys. -/

/-- `modules : Record<ModuleKey, boolean>` with possibly missing keys. -/
structure ModulesObj where
  calendar : Option Bool
  photos : Option Bool
  weather : Option Bool
deriving DecidableEq, Repr

/-- `CalendarEvent`; `source` is optional because old stored events may lack it. -/
structure CalendarEventObj where
  id : String
  title : String
  date : String
  allDay : Bool
  source : Option String
deriving DecidableEq, Repr

/-- `WeatherInfo` as a runtime object with possibly missing keys. -/
structure WeatherObj where
  location : Option String
  summary : Option String
  temp : Option String
  code : Option Int
deriving DecidableEq, Repr

/-- `WeatherForecastDay`. -/
structure ForecastDayObj where
  date : String
  high : String
  low : String
  summary : String
  code : Int
deriving DecidableEq, Repr

/-- `PhotoSources`; the source field `local` is renamed `localDir` (Lean keyword). -/
structure PhotoSourcesObj where
  google : Option Bool
  localDir : Option Bool
deriving DecidableEq, Repr

/-- `offSchedule`; the source field `end` is renamed `stop` (Lean keyword). -/
structure OffScheduleObj where
  enabled : Option Bool
  start : Option String
  stop : Option String
deriving DecidableEq, Repr

/-- `CustomTheme` as a runtime object. -/
structure CustomThemeObj where
  bg : Option String
  surface : Option String
  surface2 : Option String
  cardOpacity : Option Nat
  calendarDay : Option String
  calendarDayMuted : Option String
  calendarToday : Option String
  border : Option String
  text : Option String
  muted : Option String
  faint : Option String
  accent : Option String
  buttonText : Option String
  buttonTextOnAccent : Option String
  backgroundImage : Option String
  backgroundPosition : Option String
deriving DecidableEq, Repr

/-- `ModuleLayout` (`column`, `span`, `order`). -/
structure ModuleLayoutObj where
  column : String
  span : Nat
  order : Int
deriving DecidableEq, Repr

/-- `layout.modules` with possibly missing entries. -/
structure LayoutModulesObj where
  calendar : Option ModuleLayoutObj
  photos : Option ModuleLayoutObj
  note : Option ModuleLayoutObj
deriving DecidableEq, Repr

/-- `LayoutConfig` as a runtime object with possibly missing keys. -/
structure LayoutObj where
  mode : Option String
  sidebar : Option String
  modules : Option LayoutModulesObj
deriving DecidableEq, Repr

/-- The shared state document as stored/transmitted: every top-level key may
be absent.  A complete document (see `completeDoc`) has every key present. -/
structure HearthDoc where
  theme : Option String
  modules : Option ModulesObj
  calendarView : Option String
  calendarTimeFormat : Option String
  calendarNote : Option String
  tempUnit : Option String
  weatherForecastEnabled : Option Bool
  qrEnabled : Option Bool
  noteEnabled : Option Bool
  noteTitle : Option String
  note : Option String
  events : Option (List CalendarEventObj)
  photos : Option (List String)
  photosGoogle : Option (List String)
  photosLocal : Option (List String)
  photoSources : Option PhotoSourcesObj
  photoShuffle : Option Bool
  photoFocus : Option String
  photoTiles : Option Nat
  photoTransitionMs : Option Nat
  offSchedule : Option OffScheduleObj
  customTheme : Option CustomThemeObj
  weather : Option WeatherObj
  forecast : Option (List ForecastDayObj)
  layout : Option LayoutObj
  updatedAt : Option String
deriving DecidableEq, Repr

/-- The empty runtime object / empty partial update (no keys present). -/
def emptyDoc : HearthDoc :=
  { theme := none, modules := none, calendarView := none, calendarTimeFormat := none
    calendarNote := none, tempUnit := none, weatherForecastEnabled := none
    qrEnabled := none, noteEnabled := none, noteTitle := none, note := none
    events := none, photos := none, photosGoogle := none, photosLocal := none
    photoSources := none, photoShuffle := none, photoFocus := none
    photoTiles := none, photoTransitionMs := none, offSchedule := none
    customTheme := none, weather := none, forecast := none, layout := none
    updatedAt := none }

def emptyModules : ModulesObj := { calendar := none, photos := none, weather := none }

def emptyWeather : WeatherObj := { location := none, summary := none, temp := none, code := none }

def emptyOffSchedule : OffScheduleObj := { enabled := none, start := none, stop := none }

def emptyCustomTheme : CustomThemeObj :=
  { bg := none, surface := none, surface2 := none, cardOpacity := none
    calendarDay := none, calendarDayMuted := none, calendarToday := none
    border := none, text := none, muted := none, faint := none, accent := none
    buttonText := none, buttonTextOnAccent := none
    backgroundImage := none, backgroundPosition := none }

def emptyLayoutModules : LayoutModulesObj := { calendar := none, photos := none, note := none }

def emptyLayout : LayoutObj := { mode := none, sidebar := none, modules := none }

/-! ## `createDefaultState` (server/src/storage/seed.ts)

The clock reading and the generated ids/dates are explicit parameters:
`now` is `new Date().toISOString()`, `id0..id2` the `crypto.randomUUID()`
results and `d0..d2` the `formatDate(0..2)` results.  The three photo data
URLs are abbreviated as their labels; no theorem depends on their text. -/

def createDefaultState (now : String) (id0 id1 id2 : String) (d0 d1 d2 : String) : HearthDoc :=
  { theme := some "dark"
    modules := some { calendar := some true, photos := some true, weather := some true }
    calendarView := some "week"
    calendarTimeFormat := some "12h"
    calendarNote := some ""
    tempUnit := some "f"
    weatherForecastEnabled := some false
    qrEnabled := some true
    noteEnabled := some true
    noteTitle := some "Family Note"
    note := some "Dinner is at 6:30. Movie night after!"
    events := some
      [ { id := id0, title := "School pickup", date := d0, allDay := true, source := some "manual" },
        { id := id1, title := "Soccer practice", date := d1, allDay := true, source := some "manual" },
        { id := id2, title := "Family dinner", date := d2, allDay := true, source := some "manual" } ]
    photos := some ["svg:Hearth", "svg:Family", "svg:Moments"]
    photosGoogle := some ["svg:Hearth", "svg:Family", "svg:Moments"]
    photosLocal := some []
    photoSources := some { google := some true, localDir := some true }
    photoShuffle := some true
    photoFocus := some "center"
    photoTiles := some 1
    photoTransitionMs := some 12000
    offSchedule := some { enabled := some false, start := some "22:00", stop := some "06:00" }
    customTheme := some
      { bg := some "#0B0F14", surface := some "#111827", surface2 := some "#0F172A"
        cardOpacity := some 1
        calendarDay := some "#0F172A", calendarDayMuted := some "rgba(15, 23, 42, 0.6)"
        calendarToday := some "#111827", border := some "rgba(255, 255, 255, 0.1)"
        text := some "rgba(255, 255, 255, 0.92)", muted := some "rgba(255, 255, 255, 0.65)"
        faint := some "rgba(255, 255, 255, 0.45)", accent := some "#2DD4BF"
        buttonText := some "rgba(255, 255, 255, 0.92)", buttonTextOnAccent := some "#0B0F14"
        backgroundImage := some "", backgroundPosition := some "center" }
    weather := some { location := some "Home", summary := some "Clear and calm", temp := some "72°F", code := some 0 }
    forecast := some []
    layout := some
      { mode := some "classic", sidebar := some "right"
        modules := some
          { calendar := some { column := "left", span := 2, order := 1 },
            photos := some { column := "right", span := 1, order := 2 },
            note := some { column := "right", span := 1, order := 3 } } }
    updatedAt := some now }

/-! ## `ensureStateDefaults` (server/src/storage/seed.ts)

In the source the defaults come from an internal `createDefaultState()`
call; here they are a parameter so the clock/ids can be held fixed.
`state.events.map(...)` and `defaults.layout.modules` are unguarded
property accesses in the source, so the function fails (`none`) when
`state.events` or `defaults.layout` is absent. -/

def ensureStateDefaultsCore (defaults state : HearthDoc) (es : List CalendarEventObj)
    (dl : LayoutObj) : HearthDoc :=
  let sm := state.modules.getD emptyModules
  let dm := defaults.modules.getD emptyModules
  let sos := state.offSchedule.getD emptyOffSchedule
  let dos := defaults.offSchedule.getD emptyOffSchedule
  let sct := state.customTheme.getD emptyCustomTheme
  let dct := defaults.customTheme.getD emptyCustomTheme
  let sl := state.layout.getD emptyLayout
  let slm := sl.modules.getD emptyLayoutModules
  let dlm := dl.modules.getD emptyLayoutModules
  { theme := jsOr state.theme defaults.theme
    modules := some
      { calendar := jsOr sm.calendar dm.calendar
        photos := jsOr sm.photos dm.photos
        weather := jsOr sm.weather dm.weather }
    calendarView := jsOr state.calendarView defaults.calendarView
    calendarTimeFormat := jsOr state.calendarTimeFormat defaults.calendarTimeFormat
    calendarNote := jsOr state.calendarNote defaults.calendarNote
    tempUnit := jsOr state.tempUnit defaults.tempUnit
    weatherForecastEnabled := jsOr state.weatherForecastEnabled defaults.weatherForecastEnabled
    qrEnabled := jsOr state.qrEnabled defaults.qrEnabled
    noteEnabled := jsOr state.noteEnabled defaults.noteEnabled
    noteTitle := jsOr state.noteTitle defaults.noteTitle
    note := jsOr state.note defaults.note
    events := some (es.map fun e => { e with source := jsOr e.source (some "manual") })
    photos := jsOr state.photos defaults.photos
    photosGoogle := jsOr state.photosGoogle (jsOr state.photos defaults.photosGoogle)
    photosLocal := some (state.photosLocal.getD [])
    photoSources := jsOr state.photoSources defaults.photoSources
    photoShuffle := jsOr state.photoShuffle defaults.photoShuffle
    photoFocus := jsOr state.photoFocus defaults.photoFocus
    photoTiles := jsOr state.photoTiles defaults.photoTiles
    photoTransitionMs := jsOr state.photoTransitionMs defaults.photoTransitionMs
    offSchedule := some
      { enabled := jsOr sos.enabled dos.enabled
        start := jsOr sos.start dos.start
        stop := jsOr sos.stop dos.stop }
    customTheme := some
      { bg := jsOr sct.bg dct.bg
        surface := jsOr sct.surface dct.surface
        surface2 := jsOr sct.surface2 dct.surface2
        cardOpacity := jsOr sct.cardOpacity dct.cardOpacity
        calendarDay := jsOr sct.calendarDay dct.calendarDay
        calendarDayMuted := jsOr sct.calendarDayMuted dct.calendarDayMuted
        calendarToday := jsOr sct.calendarToday dct.calendarToday
        border := jsOr sct.border dct.border
        text := jsOr sct.text dct.text
        muted := jsOr sct.muted dct.muted
        faint := jsOr sct.faint dct.faint
        accent := jsOr sct.accent dct.accent
        buttonText := jsOr sct.buttonText dct.buttonText
        buttonTextOnAccent := jsOr sct.buttonTextOnAccent dct.buttonTextOnAccent
        backgroundImage := jsOr sct.backgroundImage dct.backgroundImage
        backgroundPosition := jsOr sct.backgroundPosition dct.backgroundPosition }
    weather := jsOr state.weather defaults.weather
    forecast := jsOr state.forecast defaults.forecast
    layout := some
      { mode := jsOr sl.mode dl.mode
        sidebar := jsOr sl.sidebar dl.sidebar
        modules := some
          { calendar := jsOr slm.calendar dlm.calendar
            photos := jsOr slm.photos dlm.photos
            note := jsOr slm.note dlm.note } }
    updatedAt := jsOr state.updatedAt defaults.updatedAt }

def ensureStateDefaults (defaults state : HearthDoc) : Option HearthDoc :=
  match state.events, defaults.layout with
  | some es, some dl => some (ensureStateDefaultsCore defaults state es dl)
  | _, _ => none

/-! ## `mergeState` (server/src/routes/control.ts)

`{...current, ...partial}` with `modules` and `weather` merged key-by-key,
`layout := partial.layout ?? current.layout`, and a fresh `updatedAt`.
The clock reading is the explicit parameter `now`. -/

def mergeState (current upd : HearthDoc) (now : String) : HearthDoc :=
  let cm := current.modules.getD emptyModules
  let um := upd.modules.getD emptyModules
  let cw := current.weather.getD emptyWeather
  let uw := upd.weather.getD emptyWeather
  { theme := jsOr upd.theme current.theme
    modules := some
      { calendar := jsOr um.calendar cm.calendar
        photos := jsOr um.photos cm.photos
        weather := jsOr um.weather cm.weather }
    calendarView := jsOr upd.calendarView current.calendarView
    calendarTimeFormat := jsOr upd.calendarTimeFormat current.calendarTimeFormat
    calendarNote := jsOr upd.calendarNote current.calendarNote
    tempUnit := jsOr upd.tempUnit current.tempUnit
    weatherForecastEnabled := jsOr upd.weatherForecastEnabled current.weatherForecastEnabled
    qrEnabled := jsOr upd.qrEnabled current.qrEnabled
    noteEnabled := jsOr upd.noteEnabled current.noteEnabled
    noteTitle := jsOr upd.noteTitle current.noteTitle
    note := jsOr upd.note current.note
    events := jsOr upd.events current.events
    photos := jsOr upd.photos current.photos
    photosGoogle := jsOr upd.photosGoogle current.photosGoogle
    photosLocal := jsOr upd.photosLocal current.photosLocal
    photoSources := jsOr upd.photoSources current.photoSources
    photoShuffle := jsOr upd.photoShuffle current.photoShuffle
    photoFocus := jsOr upd.photoFocus current.photoFocus
    photoTiles := jsOr upd.photoTiles current.photoTiles
    photoTransitionMs := jsOr upd.photoTransitionMs current.photoTransitionMs
    offSchedule := jsOr upd.offSchedule current.offSchedule
    customTheme := jsOr upd.customTheme current.customTheme
    weather := some
      { location := jsOr uw.location cw.location
        summary := jsOr uw.summary cw.summary
        temp := jsOr uw.temp cw.temp
        code := jsOr uw.code cw.code }
    forecast := jsOr upd.forecast current.forecast
    layout := jsOr upd.layout current.layout
    updatedAt := some now }

/-! ## Field getters (sub-fields of nested objects, `undefined`-propagating) -/

def modCalendar (d : HearthDoc) : Option Bool := (d.modules.getD emptyModules).calendar

def modPhotos (d : HearthDoc) : Option Bool := (d.modules.getD emptyModules).photos

def modWeather (d : HearthDoc) : Option Bool := (d.modules.getD emptyModules).weather

def wLocation (d : HearthDoc) : Option String := (d.weather.getD emptyWeather).location

def wSummary (d : HearthDoc) : Option String := (d.weather.getD emptyWeather).summary

def wTemp (d : HearthDoc) : Option String := (d.weather.getD emptyWeather).temp

def wCode (d : HearthDoc) : Option Int := (d.weather.getD emptyWeather).code

/-- A partial update carrying only `weather.temp` — the spec's
`{weather: {temp: t}}`. -/
def weatherTempUpdate (t : String) : HearthDoc :=
  { emptyDoc with weather := some { emptyWeather with temp := some t } }

/-! ## Completeness and the update schema -/

/-- All keys present, including inside the designated nested objects: the
shape every document has after seeding or `ensureStateDefaults`.  This is
what the spec calls a full state document. -/
def completeDoc (d : HearthDoc) : Bool :=
  d.theme.isSome &&
  (match d.modules with
    | some m => m.calendar.isSome && m.photos.isSome && m.weather.isSome
    | none => false) &&
  d.calendarView.isSome && d.calendarTimeFormat.isSome && d.calendarNote.isSome &&
  d.tempUnit.isSome && d.weatherForecastEnabled.isSome && d.qrEnabled.isSome &&
  d.noteEnabled.isSome && d.noteTitle.isSome && d.note.isSome &&
  (match d.events with
    | some es => es.all fun e => e.source.isSome
    | none => false) &&
  d.photos.isSome && d.photosGoogle.isSome && d.photosLocal.isSome &&
  (match d.photoSources with
    | some ps => ps.google.isSome && ps.localDir.isSome
    | none => false) &&
  d.photoShuffle.isSome && d.photoFocus.isSome && d.photoTiles.isSome &&
  d.photoTransitionMs.isSome &&
  (match d.offSchedule with
    | some o => o.enabled.isSome && o.start.isSome && o.stop.isSome
    | none => false) &&
  (match d.customTheme with
    | some c =>
      c.bg.isSome && c.surface.isSome && c.surface2.isSome && c.cardOpacity.isSome &&
      c.calendarDay.isSome && c.calendarDayMuted.isSome && c.calendarToday.isSome &&
      c.border.isSome && c.text.isSome && c.muted.isSome && c.faint.isSome &&
      c.accent.isSome && c.buttonText.isSome && c.buttonTextOnAccent.isSome &&
      c.backgroundImage.isSome && c.backgroundPosition.isSome
    | none => false) &&
  (match d.weather with
    | some w => w.location.isSome && w.summary.isSome && w.temp.isSome && w.code.isSome
    | none => false) &&
  d.forecast.isSome &&
  (match d.layout with
    | some l =>
      l.mode.isSome && l.sidebar.isSome &&
      (match l.modules with
        | some lm => lm.calendar.isSome && lm.photos.isSome && lm.note.isSome
        | none => false)
    | none => false) &&
  d.updatedAt.isSome

def photoFocusValues : List String :=
  ["none", "center", "top", "bottom", "left", "right",
   "top-left", "top-right", "bottom-left", "bottom-right"]

def validOpt {α : Type} (p : α → Bool) : Option α → Bool
  | none => true
  | some v => p v

def validModuleLayout (m : ModuleLayoutObj) : Bool :=
  ["left", "center", "right"].contains m.column && [1, 2, 3].contains m.span

/-- `layoutSchema`: a complete layout (`mode` literal, `sidebar` enum, all
three module entries present and valid). -/
def layoutValid (l : LayoutObj) : Bool :=
  l.mode == some "classic" &&
  (l.sidebar == some "right" || l.sidebar == some "left") &&
  (match l.modules with
    | some lm =>
      (match lm.calendar, lm.photos, lm.note with
        | some c, some p, some n => validModuleLayout c && validModuleLayout p && validModuleLayout n
        | _, _, _ => false)
    | none => false)

def validEvent (e : CalendarEventObj) : Bool :=
  e.title.length ≥ 1 && e.date.length ≥ 1 &&
  (e.source == some "manual" || e.source == some "ics")

/-- `stateUpdateSchema.parse` output: unknown top-level keys are stripped
(zod objects drop them), present keys satisfy the field schemas; `modules`
and `weather` may be partial, `customTheme` and `layout` must be complete
when present. -/
def stateUpdateValid (u : HearthDoc) : Bool :=
  u.calendarTimeFormat == none && u.calendarNote == none && u.noteEnabled == none &&
  u.photoTiles == none && u.photoTransitionMs == none && u.offSchedule == none &&
  u.updatedAt == none &&
  validOpt (fun t => ["dark", "light", "custom"].contains t) u.theme &&
  validOpt (fun v => ["week", "month"].contains v) u.calendarView &&
  validOpt (fun v => ["f", "c"].contains v) u.tempUnit &&
  validOpt (fun es => es.all validEvent) u.events &&
  validOpt (fun ps : List String => ps.all fun s => s.length ≥ 1) u.photos &&
  validOpt (fun ps : List String => ps.all fun s => s.length ≥ 1) u.photosGoogle &&
  validOpt (fun ps : List String => ps.all fun s => s.length ≥ 1) u.photosLocal &&
  validOpt (fun ps : PhotoSourcesObj => ps.google.isSome && ps.localDir.isSome) u.photoSources &&
  validOpt (fun f => photoFocusValues.contains f) u.photoFocus &&
  validOpt
    (fun c : CustomThemeObj =>
      c.bg.isSome && c.surface.isSome && c.surface2.isSome && c.cardOpacity.isSome &&
      c.calendarDay.isSome && c.calendarDayMuted.isSome && c.calendarToday.isSome &&
      c.border.isSome && c.text.isSome && c.muted.isSome && c.faint.isSome && c.accent.isSome)
    u.customTheme &&
  validOpt
    (fun w : WeatherObj =>
      validOpt (fun s : String => s.length ≥ 1) w.location &&
      validOpt (fun s : String => s.length ≥ 1) w.summary &&
      validOpt (fun s : String => s.length ≥ 1) w.temp)
    u.weather &&
  validOpt layoutValid u.layout

/-! ## `syncCalendarFromIcs` (server/src/calendar/sync.ts)

The fetch and the `ical` parse are external collaborators; the freshly
parsed events are the parameter `parsed`.  `state.events.filter` is an
unguarded access, so the function fails when the stored document has no
`events` key (and the route returns `null` when no document exists at all,
which callers must handle; that path is outside this transform). -/

def syncCalendarFromIcs (state : HearthDoc) (parsed : List CalendarEventObj) (now : String) :
    Option HearthDoc :=
  match state.events with
  | none => none
  | some es =>
    some { state with
           events := some (es.filter (fun e => e.source == some "manual") ++ parsed)
           updatedAt := some now }

/-! ## Byte-wise string order

SQLite's default BINARY collation (used by `expires_at > ?` and
`ORDER BY created_at ASC` in the popup queries) is a byte-wise comparison;
on the ISO-8601 timestamps the server stores it coincides with wall-clock
order. -/

def strLtChars : List Char → List Char → Bool
  | [], [] => false
  | [], _ :: _ => true
  | _ :: _, [] => false
  | a :: as, b :: bs =>
    if a.toNat < b.toNat then true
    else if b.toNat < a.toNat then false
    else strLtChars as bs

def strLt (a b : String) : Bool := strLtChars a.toList b.toList

theorem strLtChars_asymm : ∀ as bs, strLtChars as bs = true → strLtChars bs as = false := by
  intro as
  induction as with
  | nil => intro bs h; cases bs <;> simp [strLtChars] at *
  | cons a as ih =>
    intro bs h
    cases bs with
    | nil => simp [strLtChars] at h
    | cons b bs =>
      simp only [strLtChars] at h ⊢
      by_cases hab : a.toNat < b.toNat
      · have : ¬ b.toNat < a.toNat := by omega
        simp [hab, this]
      · by_cases hba : b.toNat < a.toNat
        · simp [hab, hba] at h
        · simp [hab, hba] at h ⊢
          exact ih bs h

theorem strLt_asymm (a b : String) (h : strLt a b = true) : strLt b a = false :=
  strLtChars_asymm _ _ h

theorem strLt_irrefl (a : String) : strLt a a = false := by
  cases h : strLt a a
  · rfl
  · have := strLtChars_asymm _ _ h
    simp [strLt] at this h
    simp [this] at h

/-! ## Popup overlay store (server/src/storage/popups.ts)

The `popups` table is a list of rows; each db operation is a function of
the row list.  The SQL `SELECT ... WHERE visible = 1 AND (expires_at IS
NULL OR expires_at > ?) ORDER BY created_at ASC` becomes filter-then-sort;
`UPDATE popups SET visible = 0, updated_at = ?, expires_at = ?` maps over
every row. -/

structure PopupRow where
  id : String
  message : String
  position : String
  mode : String
  priority : Option String
  duration_seconds : Option Nat
  visible : Bool
  created_at : String
  updated_at : String
  expires_at : Option String
deriving DecidableEq, Repr

structure Popup where
  id : String
  message : String
  position : String
  mode : String
  priority : String
  durationSeconds : Option Nat
  visible : Bool
  createdAt : String
  updatedAt : String
  expiresAt : Option String
deriving DecidableEq, Repr

def mapPopupRow (row : PopupRow) : Popup :=
  { id := row.id
    message := row.message
    position := row.position
    mode := row.mode
    priority := row.priority.getD "success"
    durationSeconds := row.duration_seconds
    visible := row.visible
    createdAt := row.created_at
    updatedAt := row.updated_at
    expiresAt := row.expires_at }

/-- `visible = 1 AND (expires_at IS NULL OR expires_at > nowIso)`. -/
def rowActiveAt (nowIso : String) (r : PopupRow) : Bool :=
  r.visible &&
    (match r.expires_at with
      | none => true
      | some e => strLt nowIso e)

/-- `created_at` ascending (byte order, non-strict). -/
def rowLe (a b : PopupRow) : Bool := !(strLt b.created_at a.created_at)

def insertRow (p : PopupRow) : List PopupRow → List PopupRow
  | [] => [p]
  | q :: r => if rowLe p q then p :: q :: r else q :: insertRow p r

def sortRows : List PopupRow → List PopupRow
  | [] => []
  | p :: r => insertRow p (sortRows r)

/-- `listActivePopups`: a read-only query; returns the active rows ordered
by `created_at` ascending, mapped through `mapPopupRow`. -/
def listActivePopups (rows : List PopupRow) (nowIso : String) : List Popup :=
  (sortRows (rows.filter (rowActiveAt nowIso))).map mapPopupRow

/-- The `listActivePopups` db call as a store operation: a `SELECT` returns
its result and leaves the row store untouched (no write occurs). -/
def listActivePopupsOp (rows : List PopupRow) (nowIso : String) : List Popup × List PopupRow :=
  (listActivePopups rows nowIso, rows)

/-- `clearPopups`: one bulk `UPDATE` over every row. -/
def clearPopups (rows : List PopupRow) (nowIso : String) : List PopupRow :=
  rows.map fun r => { r with visible := false, updated_at := nowIso, expires_at := some nowIso }

/-! ## Token auth (server/src/auth/token.ts)

`jsonwebtoken` is an external library; its contract is modelled as a
concrete signing scheme with the same observable behaviour: a token is a
dot-separated string `admin.<exp>.<mac>` carrying the fixed subject, an
expiry `iat + 30d` (seconds), and a deterministic signature over the
secret and the payload; verification re-derives the signature and checks
the expiry against the clock, returning failure (never an uncaught throw)
otherwise.  The alphabet of every issued token is letters, digits and
dots — in particular no space, as in a real JWS compact serialization. -/

def thirtyDays : Nat := 30 * 24 * 60 * 60

def digitChar (n : Nat) : Char :=
  if n = 0 then '0' else if n = 1 then '1' else if n = 2 then '2'
  else if n = 3 then '3' else if n = 4 then '4' else if n = 5 then '5'
  else if n = 6 then '6' else if n = 7 then '7' else if n = 8 then '8' else '9'

def isDigitChar (c : Char) : Bool := 47 < c.toNat && c.toNat < 58

def natDigitsAux : Nat → Nat → List Char
  | 0, _ => []
  | fuel + 1, n => if n < 10 then [digitChar n] else natDigitsAux fuel (n / 10) ++ [digitChar (n % 10)]

def natDigits (n : Nat) : List Char := natDigitsAux (n + 1) n

def digitsVal (l : List Char) : Nat := l.foldl (fun a c => a * 10 + (c.toNat - 48)) 0

/-- Deterministic signature model over secret and expiry. -/
def macNat (secret : String) (exp : Nat) : Nat :=
  secret.toList.foldl (fun a c => a * 131 + c.toNat + 7) 5 + exp * 1009

/-- The fixed subject marker of every issued token. -/
def tokenPrefix : List Char := ['a', 'd', 'm', 'i', 'n', '.']

/-- `signToken`: payload `sub = "admin"`, `expiresIn = "30d"`. -/
def signToken (secret : String) (nowSec : Nat) : String :=
  ⟨tokenPrefix ++ (natDigits (nowSec + thirtyDays) ++ ('.' :: natDigits (macNat secret (nowSec + thirtyDays))))⟩

def parseToken (token : String) : Option (Nat × Nat) :=
  if (token.toList.take 6) = tokenPrefix then
    match (token.toList.drop 6).dropWhile isDigitChar with
    | '.' :: m =>
      if ((token.toList.drop 6).takeWhile isDigitChar).isEmpty || m.isEmpty || !(m.all isDigitChar) then
        none
      else some (digitsVal ((token.toList.drop 6).takeWhile isDigitChar), digitsVal m)
    | _ => none
  else none

/-- `verifyToken`: signature check against the secret plus expiry check;
any malformed token fails cleanly. -/
def verifyToken (secret : String) (token : String) (nowSec : Nat) : Bool :=
  match parseToken token with
  | none => false
  | some (e, m) => m == macNat secret e && nowSec < e

/-! ## `requireAuth` (server/src/routes/control.ts)

`authHeader.replace("Bearer ", "")` — JavaScript `String.prototype.replace`
with a string pattern replaces only the FIRST occurrence (and is the
identity when the pattern does not occur). -/

def rfAux (pat rep : List Char) : List Char → List Char
  | [] => if pat.isPrefixOf ([] : List Char) then rep else []
  | c :: r =>
    if pat.isPrefixOf (c :: r) then rep ++ (c :: r).drop pat.length
    else c :: rfAux pat rep r

/-- JS `s.replace(pat, rep)` with a string pattern: first occurrence only. -/
def replaceFirst (s pat rep : String) : String := ⟨rfAux pat.toList rep.toList s.toList⟩

def requireAuth (secret : String) (authHeader : Option String) (nowSec : Nat) : Bool :=
  match authHeader with
  | none => false
  | some h => verifyToken secret (replaceFirst h "Bearer " "") nowSec

/-! ## `POST /api/control/pair` (server/src/routes/control.ts)

`pairingSchema.parse` (`code: z.string().min(4)`) throws before the
comparison when the body code is shorter than 4 characters — Fastify turns
that into an error response, not a 401.  Otherwise the stored pairing code
is compared by exact string equality. -/

inductive PairOutcome where
  | badRequest
  | unauthorized
  | paired (token : String)
deriving DecidableEq, Repr

def pairRoute (storedPairingCode : Option String) (bodyCode : String) (tokenSecret : String)
    (nowSec : Nat) : PairOutcome :=
  if bodyCode.length < 4 then .badRequest
  else
    match storedPairingCode with
    | none => .unauthorized
    | some c => if c ≠ bodyCode then .unauthorized else .paired (signToken tokenSecret nowSec)

/-! ## SSE manager and the subscribe route (server/src/realtime/sse.ts,
server/src/routes/public.ts)

The manager state is the `clients` map (flattened to a list of
client-id/device-id pairs) plus the set of running keepalive timers;
`addClient` registers a connection and starts its 25s heartbeat. -/

structure SseClient where
  clientId : Nat
  deviceId : String
deriving DecidableEq, Repr

structure SseState where
  clients : List SseClient
  heartbeats : List Nat
  nextId : Nat
deriving DecidableEq, Repr

def addClient (deviceId : String) (s : SseState) : SseState :=
  { clients := ⟨s.nextId, deviceId⟩ :: s.clients
    heartbeats := s.nextId :: s.heartbeats
    nextId := s.nextId + 1 }

inductive SubscribeOutcome where
  | notFound
  | opened
deriving DecidableEq, Repr

/-- `GET /api/display/:deviceId/events`: 404 on identity mismatch, else
register the connection. -/
def displayEventsRoute (serverDeviceId paramDeviceId : String) (s : SseState) :
    SubscribeOutcome × SseState :=
  if paramDeviceId ≠ serverDeviceId then (.notFound, s)
  else (.opened, addClient serverDeviceId s)

/-! ## Supporting lemmas -/

theorem jsOr_of_isSome {α : Type} {a : Option α} (b : Option α) (h : a.isSome) :
    jsOr a b = a := by
  cases a
  · simp at h
  · rfl

theorem charEq_of_toNat_eq {a b : Char} (h : a.toNat = b.toNat) : a = b := by
  have := congrArg Char.ofNat h
  rwa [Char.ofNat_toNat, Char.ofNat_toNat] at this

theorem strLtChars_trans :
    ∀ as bs cs, strLtChars as bs = true → strLtChars bs cs = true → strLtChars as cs = true := by
  intro as
  induction as with
  | nil =>
    intro bs cs h1 h2
    cases bs <;> cases cs <;> simp_all [strLtChars]
  | cons a at' ih =>
    intro bs cs h1 h2
    cases bs with
    | nil => simp [strLtChars] at h1
    | cons b bt =>
      cases cs with
      | nil => simp [strLtChars] at h2
      | cons c ct =>
        simp only [strLtChars] at h1 h2 ⊢
        rcases Nat.lt_trichotomy a.toNat b.toNat with h₁ | h₁ | h₁ <;>
          rcases Nat.lt_trichotomy b.toNat c.toNat with h₂ | h₂ | h₂
        · rw [if_pos (by omega : a.toNat < c.toNat)]
        · rw [if_pos (by omega : a.toNat < c.toNat)]
        · rw [if_neg (by omega : ¬ b.toNat < c.toNat), if_pos (by omega : c.toNat < b.toNat)] at h2
          exact absurd h2 (by simp)
        · rw [if_pos (by omega : a.toNat < c.toNat)]
        · rw [if_neg (by omega : ¬ a.toNat < b.toNat), if_neg (by omega : ¬ b.toNat < a.toNat)] at h1
          rw [if_neg (by omega : ¬ b.toNat < c.toNat), if_neg (by omega : ¬ c.toNat < b.toNat)] at h2
          rw [if_neg (by omega : ¬ a.toNat < c.toNat), if_neg (by omega : ¬ c.toNat < a.toNat)]
          exact ih bt ct h1 h2
        · rw [if_neg (by omega : ¬ b.toNat < c.toNat), if_pos (by omega : c.toNat < b.toNat)] at h2
          exact absurd h2 (by simp)
        · rw [if_neg (by omega : ¬ a.toNat < b.toNat), if_pos (by omega : b.toNat < a.toNat)] at h1
          exact absurd h1 (by simp)
        · rw [if_neg (by omega : ¬ a.toNat < b.toNat), if_pos (by omega : b.toNat < a.toNat)] at h1
          exact absurd h1 (by simp)
        · rw [if_neg (by omega : ¬ a.toNat < b.toNat), if_pos (by omega : b.toNat < a.toNat)] at h1
          exact absurd h1 (by simp)

theorem strLtChars_conn :
    ∀ as bs, strLtChars as bs = false → strLtChars bs as = false → as = bs := by
  intro as
  induction as with
  | nil =>
    intro bs h1 _
    cases bs with
    | nil => rfl
    | cons b bt => simp [strLtChars] at h1
  | cons a at' ih =>
    intro bs h1 h2
    cases bs with
    | nil => simp [strLtChars] at h2
    | cons b bt =>
      simp only [strLtChars] at h1 h2
      rcases Nat.lt_trichotomy a.toNat b.toNat with h₁ | h₁ | h₁
      · rw [if_pos h₁] at h1
        exact absurd h1 (by simp)
      · rw [if_neg (by omega : ¬ a.toNat < b.toNat), if_neg (by omega : ¬ b.toNat < a.toNat)] at h1
        rw [if_neg (by omega : ¬ b.toNat < a.toNat), if_neg (by omega : ¬ a.toNat < b.toNat)] at h2
        rw [charEq_of_toNat_eq h₁, ih bt h1 h2]
      · rw [if_pos h₁] at h2
        exact absurd h2 (by simp)

theorem rowLe_iff (a b : PopupRow) :
    rowLe a b = true ↔ strLt b.created_at a.created_at = false := by
  simp [rowLe]

theorem rowLe_total (a b : PopupRow) : rowLe a b = true ∨ rowLe b a = true := by
  rw [rowLe_iff, rowLe_iff]
  cases h : strLt b.created_at a.created_at
  · left; rfl
  · right; exact strLt_asymm _ _ h

theorem rowLe_trans {a b c : PopupRow} (h1 : rowLe a b = true) (h2 : rowLe b c = true) :
    rowLe a c = true := by
  rw [rowLe_iff] at h1 h2 ⊢
  by_contra hne
  have hCA : strLtChars c.created_at.toList a.created_at.toList = true := by
    cases h : strLt c.created_at a.created_at
    · exact absurd h hne
    · exact h
  have h1' : strLtChars b.created_at.toList a.created_at.toList = false := h1
  have h2' : strLtChars c.created_at.toList b.created_at.toList = false := h2
  by_cases hAB : strLtChars a.created_at.toList b.created_at.toList = true
  · have hCB := strLtChars_trans _ _ _ hCA hAB
    exact Bool.false_ne_true (h2'.symm.trans hCB)
  · simp only [Bool.not_eq_true] at hAB
    have hab := strLtChars_conn _ _ hAB h1'
    rw [hab] at hCA
    exact Bool.false_ne_true (h2'.symm.trans hCA)

theorem mem_insertRow {p x : PopupRow} : ∀ {l : List PopupRow}, x ∈ insertRow p l ↔ x = p ∨ x ∈ l := by
  intro l
  induction l with
  | nil => simp [insertRow]
  | cons q r ih =>
    simp only [insertRow]
    split
    · simp only [List.mem_cons]
    · simp only [List.mem_cons, ih]
      tauto

theorem mem_sortRows {x : PopupRow} : ∀ {l : List PopupRow}, x ∈ sortRows l ↔ x ∈ l := by
  intro l
  induction l with
  | nil => simp [sortRows]
  | cons q r ih =>
    simp only [sortRows, mem_insertRow, ih, List.mem_cons]

theorem pairwise_insertRow {p : PopupRow} :
    ∀ {l : List PopupRow}, l.Pairwise (fun a b => rowLe a b = true) →
      (insertRow p l).Pairwise (fun a b => rowLe a b = true) := by
  intro l
  induction l with
  | nil => intro _; simp [insertRow]
  | cons q r ih =>
    intro hl
    rw [List.pairwise_cons] at hl
    obtain ⟨hq, hr⟩ := hl
    simp only [insertRow]
    split
    · rename_i hpq
      refine List.Pairwise.cons ?_ (List.Pairwise.cons hq hr)
      intro x hx
      rcases List.mem_cons.mp hx with rfl | hx
      · exact hpq
      · exact rowLe_trans hpq (hq x hx)
    · rename_i hpq
      refine List.Pairwise.cons ?_ (ih hr)
      intro x hx
      rcases mem_insertRow.mp hx with rfl | hx
      · rcases rowLe_total q x with h | h
        · exact h
        · exact absurd h (by simpa using hpq)
      · exact hq x hx

theorem pairwise_sortRows :
    ∀ (l : List PopupRow), (sortRows l).Pairwise (fun a b => rowLe a b = true) := by
  intro l
  induction l with
  | nil => simp [sortRows]
  | cons q r ih => exact pairwise_insertRow ih

theorem isDigitChar_digitChar (n : Nat) : isDigitChar (digitChar n) = true := by
  unfold digitChar
  repeat' split
  all_goals decide

theorem toNat_digitChar (n : Nat) (h : n < 10) : (digitChar n).toNat - 48 = n := by
  unfold digitChar
  repeat' split
  all_goals (try (subst_vars; decide))
  have h9 : n = 9 := by omega
  subst h9
  decide

theorem natDigitsAux_all_digits : ∀ fuel n, (natDigitsAux fuel n).all isDigitChar = true := by
  intro fuel
  induction fuel with
  | zero => intro n; rfl
  | succ fuel ih =>
    intro n
    unfold natDigitsAux
    split
    · simp [isDigitChar_digitChar]
    · simp [List.all_append, ih, isDigitChar_digitChar]

theorem natDigitsAux_ne_nil (fuel n : Nat) : natDigitsAux (fuel + 1) n ≠ [] := by
  unfold natDigitsAux
  split
  · simp
  · simp

theorem digitsVal_natDigitsAux : ∀ fuel n, n < fuel → digitsVal (natDigitsAux fuel n) = n := by
  intro fuel
  induction fuel with
  | zero => intro n h; omega
  | succ fuel ih =>
    intro n h
    unfold natDigitsAux
    split
    · rename_i h10
      simp [digitsVal, List.foldl, toNat_digitChar n h10]
    · rename_i h10
      have hdiv : n / 10 < n := Nat.div_lt_self (by omega) (by omega)
      have hfuel : n / 10 < fuel := by omega
      unfold digitsVal
      rw [List.foldl_append]
      have hv := ih (n / 10) hfuel
      unfold digitsVal at hv
      rw [hv]
      simp only [List.foldl]
      have hm : (digitChar (n % 10)).toNat - 48 = n % 10 := toNat_digitChar _ (by omega)
      have hge : 48 ≤ (digitChar (n % 10)).toNat := by
        have hd := isDigitChar_digitChar (n % 10)
        unfold isDigitChar at hd
        simp at hd
        omega
      omega

theorem digitsVal_natDigits (n : Nat) : digitsVal (natDigits n) = n :=
  digitsVal_natDigitsAux (n + 1) n (by omega)

theorem natDigits_ne_nil (n : Nat) : natDigits n ≠ [] := natDigitsAux_ne_nil n n

theorem natDigits_all_digits (n : Nat) : (natDigits n).all isDigitChar = true :=
  natDigitsAux_all_digits (n + 1) n

theorem takeWhile_all_append {p : Char → Bool} {xs : List Char} {y : Char} {ys : List Char}
    (hx : xs.all p = true) (hy : p y = false) : (xs ++ y :: ys).takeWhile p = xs := by
  induction xs with
  | nil => simp [List.takeWhile, hy]
  | cons x xt ih =>
    simp only [List.all_cons, Bool.and_eq_true] at hx
    simp [List.takeWhile, hx.1, ih hx.2]

theorem dropWhile_all_append {p : Char → Bool} {xs : List Char} {y : Char} {ys : List Char}
    (hx : xs.all p = true) (hy : p y = false) : (xs ++ y :: ys).dropWhile p = y :: ys := by
  induction xs with
  | nil => simp [List.dropWhile, hy]
  | cons x xt ih =>
    simp only [List.all_cons, Bool.and_eq_true] at hx
    simp [List.dropWhile, hx.1, ih hx.2]

theorem parseToken_signToken (secret : String) (iat : Nat) :
    parseToken (signToken secret iat) =
      some (iat + thirtyDays, macNat secret (iat + thirtyDays)) := by
  unfold signToken parseToken
  have h6 : tokenPrefix.length = 6 := rfl
  have htake :
      ((tokenPrefix ++ (natDigits (iat + thirtyDays) ++ ('.' :: natDigits (macNat secret (iat + thirtyDays))))).take 6) = tokenPrefix := by
    rw [← h6, List.take_left]
  have hdrop :
      ((tokenPrefix ++ (natDigits (iat + thirtyDays) ++ ('.' :: natDigits (macNat secret (iat + thirtyDays))))).drop 6) =
        natDigits (iat + thirtyDays) ++ ('.' :: natDigits (macNat secret (iat + thirtyDays))) := by
    rw [← h6, List.drop_left]
  have htoList :
      (String.mk (tokenPrefix ++ (natDigits (iat + thirtyDays) ++ ('.' :: natDigits (macNat secret (iat + thirtyDays)))))).toList =
        tokenPrefix ++ (natDigits (iat + thirtyDays) ++ ('.' :: natDigits (macNat secret (iat + thirtyDays)))) := rfl
  rw [htoList, htake, if_pos rfl, hdrop]
  rw [takeWhile_all_append (natDigits_all_digits _) (by decide),
      dropWhile_all_append (natDigits_all_digits _) (by decide)]
  have he : (natDigits (iat + thirtyDays)).isEmpty = false := by
    cases hn : natDigits (iat + thirtyDays)
    · exact absurd hn (natDigits_ne_nil _)
    · rfl
  have hm : (natDigits (macNat secret (iat + thirtyDays))).isEmpty = false := by
    cases hn : natDigits (macNat secret (iat + thirtyDays))
    · exact absurd hn (natDigits_ne_nil _)
    · rfl
  simp only [he, hm, natDigits_all_digits, Bool.not_true, Bool.or_false, Bool.false_or,
    Bool.or_self, digitsVal_natDigits]
  rfl

theorem verifyToken_eq_of_parse {t : String} {e m : Nat} (secret : String) (nowSec : Nat)
    (h : parseToken t = some (e, m)) :
    verifyToken secret t nowSec = (m == macNat secret e && decide (nowSec < e)) := by
  unfold verifyToken
  rw [h]

theorem verifyToken_signToken (secret : String) (iat nowSec : Nat)
    (h : nowSec < iat + thirtyDays) :
    verifyToken secret (signToken secret iat) nowSec = true := by
  rw [verifyToken_eq_of_parse secret nowSec (parseToken_signToken secret iat)]
  rw [beq_self_eq_true, decide_eq_true h]
  rfl


theorem parseToken_chars {t : String} {x : Nat × Nat} (hp : parseToken t = some x) :
    ∀ c ∈ t.toList, c ≠ ' ' := by
  unfold parseToken at hp
  split at hp
  · rename_i htk
    split at hp
    · rename_i m hd
      split at hp
      · exact absurd hp (by simp)
      · rename_i hguard
        simp only [Bool.or_eq_true, Bool.not_eq_true', not_or, Bool.not_eq_true] at hguard
        have hall : m.all isDigitChar = true := by
          rcases hguard with ⟨h1, h2⟩
          by_cases hx : m.all isDigitChar = true
          · exact hx
          · simp [Bool.not_eq_true] at hx
            simp [hx] at h2
        intro c hc
        rw [← List.take_append_drop 6 t.toList] at hc
        rcases List.mem_append.mp hc with h | h
        · rw [htk] at h
          simp only [tokenPrefix, List.mem_cons, List.not_mem_nil, or_false] at h
          rcases h with rfl | rfl | rfl | rfl | rfl | rfl <;> decide
        · rw [← List.takeWhile_append_dropWhile (p := isDigitChar) (l := t.toList.drop 6)] at h
          rcases List.mem_append.mp h with h | h
          · have hdg := List.mem_takeWhile_imp h
            intro hsp
            subst hsp
            exact absurd hdg (by decide)
          · rw [hd] at h
            rcases List.mem_cons.mp h with rfl | h
            · decide
            · have hdg := List.all_eq_true.mp hall c h
              intro hsp
              subst hsp
              exact absurd hdg (by decide)
    · exact absurd hp (by simp)
  · exact absurd hp (by simp)

theorem isPrefixOf_eq_false_of_mem {x : Char} {pat l : List Char}
    (hx : x ∈ pat) (hl : x ∉ l) : pat.isPrefixOf l = false := by
  by_contra h
  simp only [Bool.not_eq_false] at h
  obtain ⟨tl, htl⟩ := List.isPrefixOf_iff_prefix.mp h
  exact hl (htl ▸ List.mem_append.mpr (Or.inl hx))

theorem rfAux_eq_self {x : Char} {pat rep : List Char} (hx : x ∈ pat) :
    ∀ l : List Char, x ∉ l → rfAux pat rep l = l := by
  intro l
  induction l with
  | nil =>
    intro _
    unfold rfAux
    rw [isPrefixOf_eq_false_of_mem hx (by simp)]
    simp
  | cons c r ih =>
    intro hl
    unfold rfAux
    rw [isPrefixOf_eq_false_of_mem hx hl]
    simp only [Bool.false_eq_true, if_false]
    rw [ih (fun hr => hl (List.mem_cons_of_mem c hr))]

theorem replaceFirst_bearer_of_parse {t : String} {x : Nat × Nat}
    (hp : parseToken t = some x) : replaceFirst t "Bearer " "" = t := by
  have hchars := parseToken_chars hp
  have hsp : ' ' ∉ t.toList := fun h => hchars ' ' h rfl
  unfold replaceFirst
  rw [rfAux_eq_self (x := ' ') (by decide) t.toList hsp]
  exact String.ext rfl

theorem requireAuth_of_verify {secret t : String} {nowSec : Nat}
    (hv : verifyToken secret t nowSec = true) :
    requireAuth secret (some t) nowSec = true := by
  show verifyToken secret (replaceFirst t "Bearer " "") nowSec = true
  cases hp : parseToken t with
  | none => unfold verifyToken at hv; rw [hp] at hv; exact absurd hv (by simp)
  | some x => rw [replaceFirst_bearer_of_parse hp]; exact hv

/-! ## Concrete documents and rows used by witnesses and counterexamples -/

def baseDoc : HearthDoc :=
  createDefaultState "2024-01-01T00:00:00.000Z" "id-0" "id-1" "id-2"
    "2024-01-01" "2024-01-02" "2024-01-03"

def layoutModeOnly : LayoutObj := { mode := some "classic", sidebar := none, modules := none }

def layoutModeOnlyUpd : HearthDoc := { emptyDoc with layout := some layoutModeOnly }

def popupRow1 : PopupRow :=
  { id := "1", message := "Dinner at 6", position := "top-left", mode := "manual"
    priority := some "success", duration_seconds := none, visible := true
    created_at := "2024-01-01T00:00:00.000Z", updated_at := "2024-01-01T00:00:00.000Z"
    expires_at := none }

def popupRow2 : PopupRow :=
  { id := "2", message := "Laundry done", position := "bottom-right", mode := "temporary"
    priority := some "warning", duration_seconds := some 9, visible := true
    created_at := "2024-01-01T00:00:01.000Z", updated_at := "2024-01-01T00:00:01.000Z"
    expires_at := some "2024-01-01T00:00:09.000Z" }

def popupRow3 : PopupRow :=
  { id := "3", message := "Old note", position := "center", mode := "manual"
    priority := some "plain", duration_seconds := none, visible := false
    created_at := "2024-01-01T00:00:02.000Z", updated_at := "2024-01-01T00:00:02.000Z"
    expires_at := none }

def evManual : CalendarEventObj :=
  { id := "m1", title := "School pickup", date := "2024-01-01", allDay := true, source := some "manual" }

def evIcsOld : CalendarEventObj :=
  { id := "o1", title := "Old feed event", date := "2024-01-02", allDay := true, source := some "ics" }

def evIcsNew : CalendarEventObj :=
  { id := "n1", title := "8:00 AM Dentist", date := "2024-01-03", allDay := false, source := some "ics" }

def c8state : HearthDoc := { baseDoc with events := some [evManual, evIcsOld] }

def c8next : HearthDoc :=
  { c8state with events := some [evManual, evIcsNew], updatedAt := some "2024-01-05T00:00:00.000Z" }

/-- "updatedAt strictly advanced" in wall-clock (byte) order. -/
def updatedAtLt (a b : Option String) : Prop :=
  ∃ x y, a = some x ∧ b = some y ∧ strLt x y = true

/-! ## Claim theorems -/

/-- C9: `GET /api/display/:deviceId/events` with a device id different from
the server's stored identity returns 404 and registers no connection: the
SSE manager's client set is unchanged and no keepalive timer is started. -/
theorem displayEventsRoute_mismatch_404 (serverId reqId : String) (s : SseState)
    (h : reqId ≠ serverId) :
    displayEventsRoute serverId reqId s = (SubscribeOutcome.notFound, s) ∧
      (displayEventsRoute serverId reqId s).2.clients = s.clients ∧
      (displayEventsRoute serverId reqId s).2.heartbeats = s.heartbeats := by
  unfold displayEventsRoute
  rw [if_pos h]
  exact ⟨rfl, rfl, rfl⟩

/-- C9 witness: a concrete mismatched subscribe. -/
theorem displayEventsRoute_mismatch_404_witness :
    displayEventsRoute "device-a" "device-b" ⟨[], [], 0⟩ =
      (SubscribeOutcome.notFound, ⟨[], [], 0⟩) :=
  (displayEventsRoute_mismatch_404 "device-a" "device-b" ⟨[], [], 0⟩ (by decide)).1

/-- C2 counterexample: `mergeState` does not merge `layout` key-by-key.
With a partial layout carrying only `mode`, the sub-field `sidebar` of
`C.layout` (absent from `P.layout`) does not keep its value from `C`. -/
theorem mergeState_layout_not_merged_cex :
    ((mergeState baseDoc layoutModeOnlyUpd "2024-01-02T00:00:00.000Z").layout.getD emptyLayout).sidebar
        ≠ (baseDoc.layout.getD emptyLayout).sidebar ∧
    (baseDoc.layout.getD emptyLayout).sidebar = some "right" ∧
    ((mergeState baseDoc layoutModeOnlyUpd "2024-01-02T00:00:00.000Z").layout.getD emptyLayout).sidebar = none := by
  refine ⟨by decide, by decide, by decide⟩

/-- C2 (amended): `mergeState` replaces `layout` wholesale when the update
carries it (`partial.layout ?? current.layout`): the result's layout is
exactly the update's layout object, and `C.layout` survives only when the
update has no `layout` key.  (Updates that pass `layoutUpdateSchema` or
`stateUpdateSchema` always carry a complete layout, so no loss is
observable through the validated routes.) -/
theorem mergeState_layout_wholesale (current upd : HearthDoc) (now : String) :
    (∀ L, upd.layout = some L → (mergeState current upd now).layout = some L) ∧
    (upd.layout = none → (mergeState current upd now).layout = current.layout) := by
  constructor
  · intro L hL
    show jsOr upd.layout current.layout = some L
    rw [hL]
    rfl
  · intro hL
    show jsOr upd.layout current.layout = current.layout
    rw [hL]
    rfl

/-- C2 witness: the wholesale replacement at a concrete input. -/
theorem mergeState_layout_wholesale_witness :
    (mergeState baseDoc layoutModeOnlyUpd "2024-01-02T00:00:00.000Z").layout = some layoutModeOnly :=
  (mergeState_layout_wholesale baseDoc layoutModeOnlyUpd "2024-01-02T00:00:00.000Z").1
    layoutModeOnly rfl

/-- C4 counterexample: a merge whose clock reading equals `C.updatedAt`
(two writes within the same millisecond) does not advance `updatedAt`. -/
theorem mergeState_updatedAt_same_instant_cex :
    (mergeState baseDoc emptyDoc "2024-01-01T00:00:00.000Z").updatedAt = baseDoc.updatedAt ∧
    ¬ updatedAtLt baseDoc.updatedAt
        ((mergeState baseDoc emptyDoc "2024-01-01T00:00:00.000Z").updatedAt) := by
  constructor
  · rfl
  · rintro ⟨x, y, hx, hy, hlt⟩
    have hx' := Option.some.inj (show some "2024-01-01T00:00:00.000Z" = some x from hx)
    have hy' := Option.some.inj (show some "2024-01-01T00:00:00.000Z" = some y from hy)
    subst hx'
    subst hy'
    rw [strLt_irrefl] at hlt
    exact Bool.false_ne_true hlt

/-- C4 (amended): `mergeState` stamps `updatedAt` with the merge-time clock
reading; the result's `updatedAt` is strictly greater than `C.updatedAt`
whenever that reading is strictly later than `C.updatedAt` (which the code
does not itself guarantee: a merge within the same millisecond as the
previous stamp yields an equal `updatedAt`). -/
theorem mergeState_stamps_fresh_updatedAt (current upd : HearthDoc) (now prev : String)
    (hprev : current.updatedAt = some prev) (hlt : strLt prev now = true) :
    (mergeState current upd now).updatedAt = some now ∧
      updatedAtLt current.updatedAt ((mergeState current upd now).updatedAt) :=
  ⟨rfl, prev, now, hprev, rfl, hlt⟩

/-- C4 witness: a strictly later clock reading advances `updatedAt`. -/
theorem mergeState_stamps_fresh_updatedAt_witness :
    (mergeState baseDoc emptyDoc "2024-01-02T00:00:00.000Z").updatedAt =
      some "2024-01-02T00:00:00.000Z" :=
  (mergeState_stamps_fresh_updatedAt baseDoc emptyDoc "2024-01-02T00:00:00.000Z"
    "2024-01-01T00:00:00.000Z" rfl (by decide)).1

/-- C6 counterexample: `clearPopups` does not leave every other field
alone — it also overwrites `expires_at` with the clear instant (the SQL is
`UPDATE popups SET visible = 0, updated_at = ?, expires_at = ?`). -/
theorem clearPopups_changes_expires_at_cex :
    (clearPopups [popupRow1] "2024-01-02T00:00:00.000Z").map (fun r => r.expires_at) ≠
      [popupRow1].map (fun r => r.expires_at) := by
  decide

/-- C6 (amended): `clearPopups` is one bulk update that sets `visible :=
false`, `updated_at := now` and also `expires_at := some now` on every row,
keeps every row in storage, changes no field besides those three, and
afterwards `listActivePopups` returns the empty list. -/
theorem clearPopups_bulk_soft_delete (rows : List PopupRow) (now : String) :
    (clearPopups rows now).length = rows.length ∧
    (∀ i (hi : i < rows.length),
      (clearPopups rows now).get ⟨i, by simpa [clearPopups] using hi⟩ =
        { rows.get ⟨i, hi⟩ with visible := false, updated_at := now, expires_at := some now }) ∧
    listActivePopups (clearPopups rows now) now = [] := by
  refine ⟨by simp [clearPopups], ?_, ?_⟩
  · intro i hi
    simp [clearPopups]
  · unfold listActivePopups
    have hf : (clearPopups rows now).filter (rowActiveAt now) = [] := by
      rw [List.filter_eq_nil_iff]
      intro r hr
      obtain ⟨r0, _, rfl⟩ := List.mem_map.mp hr
      simp [rowActiveAt]
    rw [hf]
    rfl

def popupRow1Cleared : PopupRow :=
  { popupRow1 with visible := false, updated_at := "2024-01-02T00:00:00.000Z", expires_at := some "2024-01-02T00:00:00.000Z" }

/-- C6 witness: the per-row description and clear-all scenario at a
concrete store. -/
theorem clearPopups_bulk_soft_delete_witness :
    (clearPopups [popupRow1, popupRow2, popupRow3] "2024-01-02T00:00:00.000Z").get ⟨0, by decide⟩ =
      popupRow1Cleared ∧
    listActivePopups (clearPopups [popupRow1, popupRow2, popupRow3] "2024-01-02T00:00:00.000Z")
      "2024-01-02T00:00:00.000Z" = [] := by
  have h := clearPopups_bulk_soft_delete [popupRow1, popupRow2, popupRow3] "2024-01-02T00:00:00.000Z"
  exact ⟨h.2.1 0 (by decide), h.2.2⟩

/-- C7: `listActivePopups` returns exactly the images of the stored rows
with `visible = true` and (`expires_at` null or strictly greater than
`now`), ordered by `created_at` ascending; the query writes nothing to
storage. -/
theorem listActivePopups_exact_sorted (rows : List PopupRow) (now : String) :
    (∀ p, p ∈ listActivePopups rows now ↔
        ∃ r, r ∈ rows ∧ rowActiveAt now r = true ∧ mapPopupRow r = p) ∧
    (∀ p, p ∈ listActivePopups rows now →
        p.visible = true ∧ (p.expiresAt = none ∨ ∃ e, p.expiresAt = some e ∧ strLt now e = true)) ∧
    (listActivePopups rows now).Pairwise (fun p q => strLt q.createdAt p.createdAt = false) ∧
    listActivePopupsOp rows now = (listActivePopups rows now, rows) := by
  refine ⟨?_, ?_, ?_, rfl⟩
  · intro p
    unfold listActivePopups
    rw [List.mem_map]
    constructor
    · rintro ⟨r, hr, rfl⟩
      rw [mem_sortRows, List.mem_filter] at hr
      exact ⟨r, hr.1, hr.2, rfl⟩
    · rintro ⟨r, hr, hact, rfl⟩
      exact ⟨r, mem_sortRows.mpr (List.mem_filter.mpr ⟨hr, hact⟩), rfl⟩
  · intro p hp
    unfold listActivePopups at hp
    obtain ⟨r, hr, rfl⟩ := List.mem_map.mp hp
    rw [mem_sortRows, List.mem_filter] at hr
    have hact := hr.2
    unfold rowActiveAt at hact
    simp only [Bool.and_eq_true] at hact
    refine ⟨hact.1, ?_⟩
    rcases he : r.expires_at with _ | e
    · left
      show r.expires_at = none
      exact he
    · right
      refine ⟨e, he, ?_⟩
      have h2 := hact.2
      rw [he] at h2
      exact h2
  · unfold listActivePopups
    rw [List.pairwise_map]
    refine List.Pairwise.imp ?_ (pairwise_sortRows (rows.filter (rowActiveAt now)))
    intro a b hab
    rw [rowLe_iff] at hab
    exact hab

/-- C7 witness: the spec's three-popup example. -/
theorem listActivePopups_exact_sorted_witness :
    (mapPopupRow popupRow1 ∈
      listActivePopups [popupRow2, popupRow3, popupRow1] "2024-01-01T00:00:10.000Z") ∧
    listActivePopups [popupRow2, popupRow3, popupRow1] "2024-01-01T00:00:10.000Z" =
      [mapPopupRow popupRow1] :=
  ⟨((listActivePopups_exact_sorted [popupRow2, popupRow3, popupRow1]
      "2024-01-01T00:00:10.000Z").1 (mapPopupRow popupRow1)).mpr
        ⟨popupRow1, by decide, by decide, rfl⟩,
    by decide⟩

/-- C8: an ICS resync keeps exactly the stored events whose `source` is
`manual` (unchanged, in order) and replaces the whole externally-imported
set with the freshly parsed events; `updatedAt` is restamped and nothing
else changes. -/
theorem syncCalendarFromIcs_manual_preserved (state : HearthDoc)
    (es parsed : List CalendarEventObj) (now : String) (next : HearthDoc)
    (hse : state.events = some es)
    (h : syncCalendarFromIcs state parsed now = some next) :
    next = { state with
             events := some (es.filter (fun e => e.source == some "manual") ++ parsed)
             updatedAt := some now } ∧
    (∀ e, e ∈ es.filter (fun e => e.source == some "manual") ++ parsed ↔
        ((e ∈ es ∧ e.source = some "manual") ∨ e ∈ parsed)) := by
  unfold syncCalendarFromIcs at h
  rw [hse] at h
  have hnext := Option.some.inj h
  constructor
  · exact hnext.symm
  · intro e
    simp [List.mem_append, List.mem_filter, beq_iff_eq]

/-- C8 witness: a resync over a store holding one manual and one stale
imported event, with one freshly parsed event. -/
theorem syncCalendarFromIcs_manual_preserved_witness :
    c8next = { c8state with
               events := some ([evManual, evIcsOld].filter (fun e => e.source == some "manual") ++ [evIcsNew])
               updatedAt := some "2024-01-05T00:00:00.000Z" } :=
  (syncCalendarFromIcs_manual_preserved c8state [evManual, evIcsOld] [evIcsNew]
    "2024-01-05T00:00:00.000Z" c8next rfl (by decide)).1

/-- C5 counterexample: a wrong body code shorter than 4 characters is
rejected by `pairingSchema.parse` before the comparison, producing a
validation error, not the claimed 401. -/
theorem pairRoute_short_code_cex :
    pairRoute (some "ABCD") "X" "server-secret" 0 = PairOutcome.badRequest ∧
    pairRoute (some "ABCD") "X" "server-secret" 0 ≠ PairOutcome.unauthorized := by
  exact ⟨by decide, by decide⟩

/-- C5 (amended): with stored pairing code `c` (of schema-valid length),
posting `c` returns a signed token that `verifyToken` accepts under the
server secret, and posting any schema-valid code different from `c`
returns Unauthorized with no token; bodies failing the pairing schema
(shorter than 4 characters) are rejected by validation instead (also with
no token). -/
theorem pairRoute_roundtrip (stored : Option String) (c bodyCode secret : String) (nowSec : Nat)
    (hc : stored = some c) (hlen : 4 ≤ c.length) :
    (pairRoute stored c secret nowSec = PairOutcome.paired (signToken secret nowSec) ∧
      verifyToken secret (signToken secret nowSec) nowSec = true) ∧
    (bodyCode ≠ c → 4 ≤ bodyCode.length →
      pairRoute stored bodyCode secret nowSec = PairOutcome.unauthorized) := by
  subst hc
  constructor
  · constructor
    · unfold pairRoute
      rw [if_neg (by omega)]
      show (if c ≠ c then PairOutcome.unauthorized else PairOutcome.paired (signToken secret nowSec)) =
        PairOutcome.paired (signToken secret nowSec)
      rw [if_neg (by simp)]
    · exact verifyToken_signToken secret nowSec nowSec (by unfold thirtyDays; omega)
  · intro hne hblen
    unfold pairRoute
    rw [if_neg (by omega)]
    show (if c ≠ bodyCode then PairOutcome.unauthorized else PairOutcome.paired (signToken secret nowSec)) =
      PairOutcome.unauthorized
    rw [if_pos (fun hx => hne hx.symm)]

/-- C5 witness: the spec's `"ABCD"`/`"WRONG"` round trip. -/
theorem pairRoute_roundtrip_witness :
    pairRoute (some "ABCD") "ABCD" "k" 0 = PairOutcome.paired (signToken "k" 0) ∧
    verifyToken "k" (signToken "k" 0) 0 = true ∧
    pairRoute (some "ABCD") "WRONG" "k" 0 = PairOutcome.unauthorized := by
  have h := pairRoute_roundtrip (some "ABCD") "ABCD" "WRONG" "k" 0 rfl (by decide)
  exact ⟨h.1.1, h.1.2, h.2 (by decide) (by decide)⟩

/-- C10: `requireAuth` strips only the first occurrence of `"Bearer "`
from the Authorization header before verifying, so authorization succeeds
exactly when the header with one `"Bearer "` occurrence removed verifies
against the secret — and in particular a header that is exactly a valid
token, with no `"Bearer "` prefix, is accepted (a verifying token never
contains the space that the pattern requires). -/
theorem requireAuth_bearer_optional :
    (∀ (secret h : String) (nowSec : Nat),
        requireAuth secret (some h) nowSec =
          verifyToken secret (replaceFirst h "Bearer " "") nowSec) ∧
    (∀ (secret t : String) (nowSec : Nat),
        verifyToken secret t nowSec = true → requireAuth secret (some t) nowSec = true) :=
  ⟨fun _ _ _ => rfl, fun _ _ _ hv => requireAuth_of_verify hv⟩

/-- C10 witness: a freshly signed token as a bare header is accepted. -/
theorem requireAuth_bearer_optional_witness :
    requireAuth "k" (some (signToken "k" 0)) 5 = true :=
  requireAuth_bearer_optional.2 "k" (signToken "k" 0) 5 (by decide)

/-- Reduction of `ensureStateDefaults` on a document whose `events` key is
present, against defaults that carry a `layout`. -/
theorem ensureStateDefaults_eq (defaults state : HearthDoc) (es : List CalendarEventObj)
    (dl : LayoutObj) (hse : state.events = some es) (hdl : defaults.layout = some dl) :
    ensureStateDefaults defaults state = some (ensureStateDefaultsCore defaults state es dl) := by
  unfold ensureStateDefaults
  rw [hse, hdl]

theorem jsOr_absorb_some {α : Type} (a b c : Option α) (v : α) :
    jsOr (jsOr a (jsOr b (some v))) c = jsOr a (jsOr b (some v)) := by
  cases a <;> cases b <;> rfl

theorem map_eventFix_idem (es : List CalendarEventObj) :
    ((es.map fun e => { e with source := jsOr e.source (some "manual") }).map
        fun e => { e with source := jsOr e.source (some "manual") }) =
      es.map fun e => { e with source := jsOr e.source (some "manual") } := by
  rw [List.map_map]
  apply List.map_congr_left
  intro e _
  show ({ e with source := jsOr (jsOr e.source (some "manual")) (some "manual") } : CalendarEventObj) =
    { e with source := jsOr e.source (some "manual") }
  rw [jsOr_self_right]

/-- C3: `ensureStateDefaults` is idempotent.  With the generated defaults
held fixed (default generation reads the clock and draws fresh ids, so the
two applications must see the same defaults document, which is always
complete), reapplying the reconciler to its own output changes nothing —
for every stored document, partial or complete, on which the first
application succeeds at all. -/
theorem ensureStateDefaults_idem (defaults state d1 : HearthDoc)
    (hdef : completeDoc defaults = true)
    (h : ensureStateDefaults defaults state = some d1) :
    ensureStateDefaults defaults d1 = some d1 := by
  have hpg : defaults.photosGoogle.isSome = true := by
    unfold completeDoc at hdef
    simp only [Bool.and_eq_true] at hdef
    tauto
  obtain ⟨g, hg⟩ := Option.isSome_iff_exists.mp hpg
  unfold ensureStateDefaults at h
  split at h
  · rename_i es dl hse hdl
    have hd1 : d1 = ensureStateDefaultsCore defaults state es dl := (Option.some.inj h).symm
    subst hd1
    rw [ensureStateDefaults_eq defaults _
      (es.map fun e => { e with source := jsOr e.source (some "manual") }) dl rfl hdl]
    congr 1
    unfold ensureStateDefaultsCore
    rw [hg]
    simp only [Option.getD_some, HearthDoc.mk.injEq, ModulesObj.mk.injEq,
      OffScheduleObj.mk.injEq, CustomThemeObj.mk.injEq, LayoutObj.mk.injEq,
      LayoutModulesObj.mk.injEq, Option.some.injEq, jsOr_self_right, jsOr_absorb_some,
      map_eventFix_idem, and_self]
  · simp at h

def c3state : HearthDoc := { emptyDoc with events := some [] }

def c3doc : HearthDoc := { baseDoc with events := some [] }

/-- C3 witness: reconciling a near-empty stored document against fixed
generated defaults, twice. -/
theorem ensureStateDefaults_idem_witness :
    ensureStateDefaults baseDoc c3doc = some c3doc :=
  ensureStateDefaults_idem baseDoc c3state c3doc (by decide) (by decide)

/-- C1: for a full current document and a schema-valid partial update,
`mergeState` replaces each scalar/array top-level field wholesale when the
update carries it (keeping the current value otherwise) and merges
`modules` and `weather` key-by-key; in particular `{weather: {temp: t}}`
sets `weather.temp` to `t` while `weather.summary` and every other
sub-field of `weather` and `modules` keep their values from the current
document. -/
theorem mergeState_deep_merge (current upd : HearthDoc) (now t : String)
    (hC : completeDoc current = true) (hu : stateUpdateValid upd = true) :
    ((mergeState current upd now).theme = jsOr upd.theme current.theme ∧
     (mergeState current upd now).calendarView = jsOr upd.calendarView current.calendarView ∧
     (mergeState current upd now).tempUnit = jsOr upd.tempUnit current.tempUnit ∧
     (mergeState current upd now).weatherForecastEnabled =
       jsOr upd.weatherForecastEnabled current.weatherForecastEnabled ∧
     (mergeState current upd now).qrEnabled = jsOr upd.qrEnabled current.qrEnabled ∧
     (mergeState current upd now).noteTitle = jsOr upd.noteTitle current.noteTitle ∧
     (mergeState current upd now).note = jsOr upd.note current.note ∧
     (mergeState current upd now).events = jsOr upd.events current.events ∧
     (mergeState current upd now).photos = jsOr upd.photos current.photos ∧
     (mergeState current upd now).photosGoogle = jsOr upd.photosGoogle current.photosGoogle ∧
     (mergeState current upd now).photosLocal = jsOr upd.photosLocal current.photosLocal ∧
     (mergeState current upd now).photoShuffle = jsOr upd.photoShuffle current.photoShuffle ∧
     (mergeState current upd now).photoFocus = jsOr upd.photoFocus current.photoFocus ∧
     (mergeState current upd now).forecast = jsOr upd.forecast current.forecast) ∧
    (modCalendar (mergeState current upd now) = jsOr (modCalendar upd) (modCalendar current) ∧
     modPhotos (mergeState current upd now) = jsOr (modPhotos upd) (modPhotos current) ∧
     modWeather (mergeState current upd now) = jsOr (modWeather upd) (modWeather current) ∧
     wLocation (mergeState current upd now) = jsOr (wLocation upd) (wLocation current) ∧
     wSummary (mergeState current upd now) = jsOr (wSummary upd) (wSummary current) ∧
     wTemp (mergeState current upd now) = jsOr (wTemp upd) (wTemp current) ∧
     wCode (mergeState current upd now) = jsOr (wCode upd) (wCode current)) ∧
    (upd = weatherTempUpdate t →
      wTemp (mergeState current upd now) = some t ∧
      wSummary (mergeState current upd now) = wSummary current ∧
      wLocation (mergeState current upd now) = wLocation current ∧
      wCode (mergeState current upd now) = wCode current ∧
      modCalendar (mergeState current upd now) = modCalendar current ∧
      modPhotos (mergeState current upd now) = modPhotos current ∧
      modWeather (mergeState current upd now) = modWeather current) := by
  refine ⟨⟨rfl, rfl, rfl, rfl, rfl, rfl, rfl, rfl, rfl, rfl, rfl, rfl, rfl, rfl⟩,
    ⟨rfl, rfl, rfl, rfl, rfl, rfl, rfl⟩, ?_⟩
  intro hupd
  subst hupd
  exact ⟨rfl, rfl, rfl, rfl, rfl, rfl, rfl⟩

/-- C1 witness: the spec's `{weather: {temp: "50°F"}}` update against the
seeded default document. -/
theorem mergeState_deep_merge_witness :
    wTemp (mergeState baseDoc (weatherTempUpdate "50°F") "2024-01-02T00:00:00.000Z") = some "50°F" ∧
    wSummary (mergeState baseDoc (weatherTempUpdate "50°F") "2024-01-02T00:00:00.000Z") =
      some "Clear and calm" := by
  have h := mergeState_deep_merge baseDoc (weatherTempUpdate "50°F") "2024-01-02T00:00:00.000Z"
    "50°F" (by decide) (by decide)
  have hi := h.2.2 rfl
  exact ⟨hi.1, by rw [hi.2.1]; decide⟩

end Hearth
